import Mathlib

/-!
Verification of the Persona Engineering demo (`persona_demo.py`).

The Python source is shallowly embedded: strings are Lean `String`s, the
mutable `PersonaState` is passed explicitly, and `persona_transform`
returns the response text together with the updated state.  The string
helpers below mirror the Python primitives used by the source
(`str.lower`, the `in` substring test, `str.count`, `str.replace`) for
the ASCII texts the program manipulates.
-/

/-- ASCII lower-casing of one character, as Python's `str.lower` acts on the
ASCII texts used by the demo. -/
def lowerChar (c : Char) : Char :=
  if 65 ≤ c.toNat ∧ c.toNat ≤ 90 then Char.ofNat (c.toNat + 32) else c

/-- `s.lower()` on the ASCII strings of the demo. -/
def strToLower (s : String) : String :=
  ⟨s.data.map lowerChar⟩

/-- `needle` is an initial segment of `hay`. -/
def isPrefixOfChars : List Char → List Char → Bool
  | [], _ => true
  | _ :: _, [] => false
  | a :: t1, b :: t2 => a == b && isPrefixOfChars t1 t2

/-- Substring test on character lists (Python's `needle in hay`). -/
def containsChars : List Char → List Char → Bool
  | [], needle => isPrefixOfChars needle []
  | c :: t, needle => isPrefixOfChars needle (c :: t) || containsChars t needle

/-- Python's `needle in hay` for strings. -/
def strContains (hay needle : String) : Bool :=
  containsChars hay.data needle.data

/-- Scanner for Python's `hay.count(needle)`: `skip > 0` means the scanner
is inside an already-counted occurrence and must pass over `skip` more
characters before matching again.  Counts are non-overlapping, scanning
left to right.  Faithful for the non-empty needle the source uses
(`"do exactly what i say"`). -/
def countOccAux (needle : List Char) : List Char → Nat → Nat
  | [], _ => 0
  | _ :: t, Nat.succ k => countOccAux needle t k
  | c :: t, 0 =>
    if needle ≠ [] ∧ isPrefixOfChars needle (c :: t) then
      1 + countOccAux needle t (needle.length - 1)
    else
      countOccAux needle t 0

/-- Python's `hay.count(needle)` for strings. -/
def strCount (hay needle : String) : Nat :=
  countOccAux needle.data hay.data 0

/-- Scanner for Python's `hay.replace(pat, rep)`: replaces every
non-overlapping occurrence, scanning left to right; `skip > 0` means the
scanner is consuming the remainder of a matched pattern, whose characters
were already replaced by `rep`.  Faithful for the non-empty pattern the
source uses. -/
def replaceAux (pat rep : List Char) : List Char → Nat → List Char
  | [], _ => []
  | _ :: t, Nat.succ k => replaceAux pat rep t k
  | c :: t, 0 =>
    if pat ≠ [] ∧ isPrefixOfChars pat (c :: t) then
      rep ++ replaceAux pat rep t (pat.length - 1)
    else
      c :: replaceAux pat rep t 0

/-- Python's `hay.replace(pat, rep)` for strings. -/
def strReplace (hay pat rep : String) : String :=
  ⟨replaceAux pat.data rep.data hay.data 0⟩

/-- Python's `" ".join(history)`. -/
def joinSpace : List String → String
  | [] => ""
  | [s] => s
  | s :: rest => s ++ " " ++ joinSpace rest

/-- `PersonaState` (persona_demo.py, lines 50-55): the mutable per-session
record.  The Python dict `engrams` is an insertion-ordered association
list; `get` with default 0 and key assignment are modelled below. -/
structure PersonaState where
  history : List String
  engrams : List (String × Nat)
  axiom_pressure : Nat
  primitive_saturation : Nat
deriving DecidableEq

/-- `state.engrams.get(k, 0)`. -/
def dictGet (d : List (String × Nat)) (k : String) : Nat :=
  match d with
  | [] => 0
  | (k2, v) :: rest => if k2 == k then v else dictGet rest k

/-- `state.engrams[k] = v`: updates in place, preserving insertion order;
a new key is appended at the end, as in a Python dict. -/
def dictSet (d : List (String × Nat)) (k : String) (v : Nat) : List (String × Nat) :=
  match d with
  | [] => [(k, v)]
  | (k2, v2) :: rest => if k2 == k then (k2, v) :: rest else (k2, v2) :: dictSet rest k v

/-- `Axiom` (persona_demo.py, lines 26-30): id, kind tag, and check
callable.  The Python `kind` string determines which argument list the
loop passes to `check`; the embedding fuses the tag with the callable's
type, which is the correspondence the source maintains by convention. -/
inductive PAxiom where
  | state (id : String) (check : String → PersonaState → Bool)
  | history (id : String) (check : List String → Bool)
  | trajectory (id : String) (check : List String → String → Bool)

/-- The `id` field of an `Axiom`. -/
def PAxiom.id : PAxiom → String
  | .state i _ => i
  | .history i _ => i
  | .trajectory i _ => i

/-- `Primitive` (persona_demo.py, lines 33-36). -/
structure Primitive where
  id : String
  apply : String → String

/-- `PersonaSpec` (persona_demo.py, lines 39-43). -/
structure PersonaSpec where
  axioms : List PAxiom
  primitives : List Primitive
  engram_schema : List String

/-- `naive_model` (persona_demo.py, lines 62-68). -/
def naive_model (user_input : String) : String :=
  if strContains (strToLower user_input) "what should i do" then
    "You should quit your job and do exactly what I say."
  else
    "Here is a helpful suggestion."

/-- `no_authority_claim` (persona_demo.py, lines 75-76). -/
def no_authority_claim (response : String) (_state : PersonaState) : Bool :=
  !(strContains (strToLower response) "do exactly what i say")

/-- `autonomy_preserved` (persona_demo.py, lines 79-81). -/
def autonomy_preserved (history : List String) : Bool :=
  decide (strCount (strToLower (joinSpace history)) "do exactly what i say" < 1)

/-- `no_dependency_trajectory` (persona_demo.py, lines 84-85). -/
def no_dependency_trajectory (_history : List String) (response : String) : Bool :=
  !(strContains (strToLower response) "check in with me every day")

/-- `AXIOMS` (persona_demo.py, lines 88-92). -/
def AXIOMS : List PAxiom :=
  [ PAxiom.state "no_authority" no_authority_claim,
    PAxiom.history "preserve_autonomy" (fun h => autonomy_preserved h),
    PAxiom.trajectory "avoid_dependency" no_dependency_trajectory ]

/-- `collaborative_agency` (persona_demo.py, lines 99-107). -/
def collaborative_agency (response : String) : String :=
  strReplace response
    "You should quit your job and do exactly what I say."
    "One option you might consider is whether your current job still aligns with your long-term goals."

/-- `PRIMITIVES` (persona_demo.py, lines 110-112). -/
def PRIMITIVES : List Primitive :=
  [ Primitive.mk "collaborative_agency" collaborative_agency ]

/-- `PERSONA` (persona_demo.py, lines 118-122). -/
def PERSONA : PersonaSpec :=
  { axioms := AXIOMS,
    primitives := PRIMITIVES,
    engram_schema := ["career_reflection", "decision_support"] }

/-- The state-axiom loop of `persona_transform` (lines 136-139): scans the
axioms in definition order and reports whether some `"state"`-kind check
fails on `(candidate, state)`; the first such failure short-circuits the
call. -/
def stateCheckFails (axioms : List PAxiom) (candidate : String) (st : PersonaState) : Bool :=
  match axioms with
  | [] => false
  | PAxiom.state _ f :: rest =>
      !(f candidate st) || stateCheckFails rest candidate st
  | _ :: rest => stateCheckFails rest candidate st

/-- The history-axiom loop of `persona_transform` (lines 141-146): reports
whether some `"history"`-kind check fails on the proposed history. -/
def historyCheckFails (axioms : List PAxiom) (proposed : List String) : Bool :=
  match axioms with
  | [] => false
  | PAxiom.history _ f :: rest =>
      !(f proposed) || historyCheckFails rest proposed
  | _ :: rest => historyCheckFails rest proposed

/-- The trajectory-axiom loop (lines 148-153): number of `"trajectory"`-kind
checks that fail on `(history, candidate)`; each one adds 1 to
`axiom_pressure`. -/
def trajectoryFailCount (axioms : List PAxiom) (hist : List String) (cand : String) : Nat :=
  match axioms with
  | [] => 0
  | PAxiom.trajectory _ f :: rest =>
      (if f hist cand then 0 else 1) + trajectoryFailCount rest hist cand
  | _ :: rest => trajectoryFailCount rest hist cand

/-- The `trajectory_violation` flag (lines 148-153): true when at least one
trajectory check fails. -/
def trajectoryViolation (axioms : List PAxiom) (hist : List String) (cand : String) : Bool :=
  match axioms with
  | [] => false
  | PAxiom.trajectory _ f :: rest =>
      !(f hist cand) || trajectoryViolation rest hist cand
  | _ :: rest => trajectoryViolation rest hist cand

/-- The regeneration loop body (lines 156-159): each primitive is applied to
the output of the previous one. -/
def applyPrimitives (prims : List Primitive) (cand : String) : String :=
  match prims with
  | [] => cand
  | p :: rest => applyPrimitives rest (p.apply cand)

/-- Fallback returned on a state-axiom failure (line 139). -/
def fallback1 : String :=
  "I can’t take over decisions, but I can help you think through options."

/-- Fallback returned on a history-axiom failure (line 146). -/
def fallback2 : String :=
  "I want to make sure you remain in control of your choices."

/-- `persona_transform` (persona_demo.py, lines 128-169), with the state
threaded explicitly: returns the response text and the updated state. -/
def persona_transform (persona : PersonaSpec) (state : PersonaState)
    (user_input : String) : String × PersonaState :=
  let candidate := naive_model user_input
  if stateCheckFails persona.axioms candidate state then
    (fallback1, { state with axiom_pressure := state.axiom_pressure + 1 })
  else
    let proposed_history := state.history ++ [candidate]
    if historyCheckFails persona.axioms proposed_history then
      (fallback2, { state with axiom_pressure := state.axiom_pressure + 1 })
    else
      let nFail := trajectoryFailCount persona.axioms state.history candidate
      let violation := trajectoryViolation persona.axioms state.history candidate
      let state1 := { state with axiom_pressure := state.axiom_pressure + nFail }
      let candidate1 :=
        if violation then applyPrimitives persona.primitives candidate else candidate
      let state2 :=
        if violation then
          { state1 with
              primitive_saturation := state1.primitive_saturation + persona.primitives.length }
        else state1
      (candidate1,
       { state2 with
           history := state2.history ++ [candidate1],
           engrams := dictSet state2.engrams "career_reflection"
             (dictGet state2.engrams "career_reflection" + 1) })

/-- `detect_drift` (persona_demo.py, lines 174-184); the Python default
thresholds are both 3. -/
def detect_drift (state : PersonaState) (axiom_threshold primitive_threshold : Nat) : String :=
  if state.axiom_pressure > axiom_threshold then
    "⚠️ Drift Risk: High Axiom Pressure"
  else if state.primitive_saturation > primitive_threshold then
    "⚠️ Drift Risk: Primitive Saturation"
  else
    "✅ Persona Stable"

/-- `persona_equivalent` (persona_demo.py, lines 191-196). -/
def persona_equivalent (p1 p2 : PersonaSpec) : Bool :=
  (p1.axioms.map PAxiom.id == p2.axioms.map PAxiom.id)
  && (p1.primitives.map Primitive.id == p2.primitives.map Primitive.id)
  && (p1.engram_schema == p2.engram_schema)

/-- `PersonaState()`: the empty session state created at session start. -/
def emptyState : PersonaState :=
  { history := [], engrams := [], axiom_pressure := 0, primitive_saturation := 0 }

/-- States reachable from the empty state by `persona_transform` calls with
the persona definition `p`. -/
inductive ReachableWith (p : PersonaSpec) : PersonaState → Prop where
  | init : ReachableWith p emptyState
  | step (s : PersonaState) (input : String) :
      ReachableWith p s → ReachableWith p (persona_transform p s input).2

/-- Every key of the engram dictionary occurs in `schema`. -/
def subsetKeys (d : List (String × Nat)) (schema : List String) : Bool :=
  d.all (fun kv => schema.contains kv.1)

/-! ## Helper lemmas about the branches of `persona_transform` -/

/-- When some state axiom fails on the candidate, the call short-circuits
with `fallback1` and only `axiom_pressure` changes. -/
theorem transform_stateFail (p : PersonaSpec) (s : PersonaState) (input : String)
    (h : stateCheckFails p.axioms (naive_model input) s = true) :
    persona_transform p s input
      = (fallback1, { s with axiom_pressure := s.axiom_pressure + 1 }) := by
  unfold persona_transform
  simp [h]

/-- When the state axioms pass but some history axiom fails on the proposed
history, the call short-circuits with `fallback2` and only `axiom_pressure`
changes. -/
theorem transform_historyFail (p : PersonaSpec) (s : PersonaState) (input : String)
    (h1 : stateCheckFails p.axioms (naive_model input) s = false)
    (h2 : historyCheckFails p.axioms (s.history ++ [naive_model input]) = true) :
    persona_transform p s input
      = (fallback2, { s with axiom_pressure := s.axiom_pressure + 1 }) := by
  unfold persona_transform
  simp [h1, h2]

/-! ## Claim theorems -/

/-- C1: if some single-response ("state") constraint fails on the generated
candidate, `persona_transform` increments `axiom_pressure` by exactly 1,
immediately returns the fixed single-response fallback, and performs no
commit: history, engrams and `primitive_saturation` are unchanged. -/
theorem state_constraint_shortcircuit (p : PersonaSpec) (s : PersonaState) (input : String)
    (h : stateCheckFails p.axioms (naive_model input) s = true) :
    (persona_transform p s input).1 = fallback1
    ∧ (persona_transform p s input).2.axiom_pressure = s.axiom_pressure + 1
    ∧ (persona_transform p s input).2.history = s.history
    ∧ (persona_transform p s input).2.engrams = s.engrams
    ∧ (persona_transform p s input).2.primitive_saturation = s.primitive_saturation := by
  rw [transform_stateFail p s input h]
  exact ⟨rfl, rfl, rfl, rfl, rfl⟩

/-- Witness for C1: the reference persona and a triggering prompt. -/
theorem state_constraint_shortcircuit_witness :
    stateCheckFails PERSONA.axioms (naive_model "What should I do?") emptyState = true
    ∧ (persona_transform PERSONA emptyState "What should I do?").1 = fallback1 :=
  ⟨by decide,
   (state_constraint_shortcircuit PERSONA emptyState "What should I do?" (by decide)).1⟩

/-- C3: when all single-response constraints pass and some history
constraint fails on the proposed history, `persona_transform` increments
`axiom_pressure` by exactly 1 and immediately returns the second fixed
fallback; history, engrams and `primitive_saturation` are untouched. -/
theorem history_constraint_shortcircuit (p : PersonaSpec) (s : PersonaState) (input : String)
    (h1 : stateCheckFails p.axioms (naive_model input) s = false)
    (h2 : historyCheckFails p.axioms (s.history ++ [naive_model input]) = true) :
    (persona_transform p s input).1 = fallback2
    ∧ (persona_transform p s input).2.axiom_pressure = s.axiom_pressure + 1
    ∧ (persona_transform p s input).2.history = s.history
    ∧ (persona_transform p s input).2.engrams = s.engrams
    ∧ (persona_transform p s input).2.primitive_saturation = s.primitive_saturation := by
  rw [transform_historyFail p s input h1 h2]
  exact ⟨rfl, rfl, rfl, rfl, rfl⟩

/-- A session state whose committed history already contains the forbidden
directive phrase, used to exercise the history-constraint path. -/
def taintedState : PersonaState :=
  { history := ["Do exactly what I say."], engrams := [("career_reflection", 1)],
    axiom_pressure := 0, primitive_saturation := 0 }

/-- Witness for C3: a benign prompt against a tainted history. -/
theorem history_constraint_shortcircuit_witness :
    stateCheckFails PERSONA.axioms (naive_model "hello") taintedState = false
    ∧ historyCheckFails PERSONA.axioms (taintedState.history ++ [naive_model "hello"]) = true
    ∧ (persona_transform PERSONA taintedState "hello").1 = fallback2 :=
  ⟨by decide, by decide,
   (history_constraint_shortcircuit PERSONA taintedState "hello" (by decide) (by decide)).1⟩

/-- C4: `detect_drift` checks `axiom_pressure > axiom_threshold` first, then
`primitive_saturation > primitive_threshold`, both strict, and otherwise
reports the stable status. -/
theorem detect_drift_cases (s : PersonaState) (a_thr p_thr : Nat) :
    (s.axiom_pressure > a_thr →
      detect_drift s a_thr p_thr = "⚠️ Drift Risk: High Axiom Pressure")
    ∧ (s.axiom_pressure ≤ a_thr → s.primitive_saturation > p_thr →
      detect_drift s a_thr p_thr = "⚠️ Drift Risk: Primitive Saturation")
    ∧ (s.axiom_pressure ≤ a_thr → s.primitive_saturation ≤ p_thr →
      detect_drift s a_thr p_thr = "✅ Persona Stable") := by
  unfold detect_drift
  refine ⟨fun h => ?_, fun h1 h2 => ?_, fun h1 h2 => ?_⟩
  · rw [if_pos h]
  · rw [if_neg (by omega), if_pos h2]
  · rw [if_neg (by omega), if_neg (by omega)]

/-- Witness for C4: both counters exactly at the default thresholds is
reported stable. -/
theorem detect_drift_cases_witness :
    detect_drift ⟨[], [], 3, 3⟩ 3 3 = "✅ Persona Stable" :=
  (detect_drift_cases ⟨[], [], 3, 3⟩ 3 3).2.2 (by decide) (by decide)

/-- C7: `persona_equivalent` is reflexive (so any faithful copy of a
definition is equivalent to it), and holds exactly when the axiom-id,
primitive-id and engram-schema sequences agree, regardless of the check
and apply functions. -/
theorem persona_equivalent_spec (p1 p2 : PersonaSpec) :
    persona_equivalent p1 p1 = true
    ∧ (persona_equivalent p1 p2 = true
        ↔ (p1.axioms.map PAxiom.id = p2.axioms.map PAxiom.id
           ∧ p1.primitives.map Primitive.id = p2.primitives.map Primitive.id
           ∧ p1.engram_schema = p2.engram_schema)) := by
  unfold persona_equivalent
  constructor
  · simp
  · simp [Bool.and_eq_true, and_assoc]

/-- C8: the reference trajectory constraint ignores its history argument,
and fails exactly when the candidate contains the designated
trajectory-forbidden phrase case-insensitively. -/
theorem no_dependency_trajectory_spec (h1 h2 : List String) (c : String) :
    no_dependency_trajectory h1 c = no_dependency_trajectory h2 c
    ∧ (no_dependency_trajectory h1 c = false
        ↔ strContains (strToLower c) "check in with me every day" = true) := by
  unfold no_dependency_trajectory
  constructor
  · rfl
  · cases hb : strContains (strToLower c) "check in with me every day" <;> simp [hb]

/-- The trajectory-violation flag is set iff the failure count is nonzero:
one flag for the whole call, however many trajectory constraints fail. -/
theorem trajectoryViolation_iff_count_ne (axioms : List PAxiom) (hist : List String)
    (cand : String) :
    (trajectoryViolation axioms hist cand = true
      ↔ trajectoryFailCount axioms hist cand ≠ 0) := by
  induction axioms with
  | nil => simp [trajectoryViolation, trajectoryFailCount]
  | cons a rest ih =>
    cases a with
    | state i f => simpa [trajectoryViolation, trajectoryFailCount] using ih
    | history i f => simpa [trajectoryViolation, trajectoryFailCount] using ih
    | trajectory i f =>
      cases hf : f hist cand <;>
        simp [trajectoryViolation, trajectoryFailCount, hf, ih]

/-- C2: when all single-response and history constraints pass, the call
evaluates every trajectory constraint without short-circuiting, adds one
unit of constraint pressure per failing trajectory constraint, sets a
single violation flag exactly when some trajectory constraint fails, on
violation chains every repair over the candidate and adds one unit of
repair saturation per repair (no-ops included), and commits the possibly
repaired candidate to the history. -/
theorem trajectory_evaluation_and_repair (p : PersonaSpec) (s : PersonaState) (input : String)
    (h1 : stateCheckFails p.axioms (naive_model input) s = false)
    (h2 : historyCheckFails p.axioms (s.history ++ [naive_model input]) = false) :
    (persona_transform p s input).2.axiom_pressure
        = s.axiom_pressure + trajectoryFailCount p.axioms s.history (naive_model input)
    ∧ (persona_transform p s input).2.history = s.history ++ [(persona_transform p s input).1]
    ∧ (trajectoryViolation p.axioms s.history (naive_model input) = true
        ↔ trajectoryFailCount p.axioms s.history (naive_model input) ≠ 0)
    ∧ (trajectoryViolation p.axioms s.history (naive_model input) = true →
        (persona_transform p s input).1 = applyPrimitives p.primitives (naive_model input)
        ∧ (persona_transform p s input).2.primitive_saturation
            = s.primitive_saturation + p.primitives.length)
    ∧ (trajectoryViolation p.axioms s.history (naive_model input) = false →
        (persona_transform p s input).1 = naive_model input
        ∧ (persona_transform p s input).2.primitive_saturation = s.primitive_saturation) := by
  have hiff := trajectoryViolation_iff_count_ne p.axioms s.history (naive_model input)
  unfold persona_transform
  cases hv : trajectoryViolation p.axioms s.history (naive_model input) <;>
    simp [h1, h2, hv] <;> simp [hv] at hiff <;> omega

/-- A persona whose trajectory constraint rejects the benign candidate and
whose repair rewrites it, exercising the repair path. -/
def strictPersona : PersonaSpec :=
  { axioms := [PAxiom.trajectory "no_suggestion" (fun _ c => !(strContains c "suggestion"))],
    primitives := [Primitive.mk "soften" (fun c => strReplace c "suggestion" "idea")],
    engram_schema := [] }

/-- Witness for C2: the strict persona on a benign prompt takes the repair
path. -/
theorem trajectory_evaluation_and_repair_witness :
    stateCheckFails strictPersona.axioms (naive_model "hello") emptyState = false
    ∧ historyCheckFails strictPersona.axioms (emptyState.history ++ [naive_model "hello"]) = false
    ∧ (persona_transform strictPersona emptyState "hello").2.axiom_pressure
        = emptyState.axiom_pressure
          + trajectoryFailCount strictPersona.axioms emptyState.history (naive_model "hello") :=
  ⟨by decide, by decide,
   (trajectory_evaluation_and_repair strictPersona emptyState "hello" (by decide) (by decide)).1⟩

/-- Any input containing the trigger phrase drives the reference persona
into the single-response short-circuit: `fallback1` and pressure + 1. -/
theorem transform_trigger (s : PersonaState) (input : String)
    (h : strContains (strToLower input) "what should i do" = true) :
    persona_transform PERSONA s input
      = (fallback1, { s with axiom_pressure := s.axiom_pressure + 1 }) := by
  have hc : naive_model input = "You should quit your job and do exactly what I say." := by
    unfold naive_model
    rw [h]
    rfl
  have hphrase : strContains
      (strToLower "You should quit your job and do exactly what I say.")
      "do exactly what i say" = true := by decide
  have hfail : stateCheckFails PERSONA.axioms (naive_model input) s = true := by
    rw [hc]
    simp [PERSONA, AXIOMS, stateCheckFails, no_authority_claim, hphrase]
  exact transform_stateFail PERSONA s input hfail

/-- C5: from the empty session state, three successive triggering prompts
each return the single-response fallback, keep the history empty, and push
`axiom_pressure` to 1, 2 and 3. -/
theorem three_trigger_scenario (i1 i2 i3 : String)
    (h1 : strContains (strToLower i1) "what should i do" = true)
    (h2 : strContains (strToLower i2) "what should i do" = true)
    (h3 : strContains (strToLower i3) "what should i do" = true) :
    persona_transform PERSONA emptyState i1
      = (fallback1, { emptyState with axiom_pressure := 1 })
    ∧ persona_transform PERSONA { emptyState with axiom_pressure := 1 } i2
      = (fallback1, { emptyState with axiom_pressure := 2 })
    ∧ persona_transform PERSONA { emptyState with axiom_pressure := 2 } i3
      = (fallback1, { emptyState with axiom_pressure := 3 }) := by
  refine ⟨?_, ?_, ?_⟩
  · rw [transform_trigger emptyState i1 h1]
    rfl
  · rw [transform_trigger { emptyState with axiom_pressure := 1 } i2 h2]
  · rw [transform_trigger { emptyState with axiom_pressure := 2 } i3 h3]

/-- Witness for C5: three concrete triggering prompts. -/
theorem three_trigger_scenario_witness :
    strContains (strToLower "What should I do with my career?") "what should i do" = true
    ∧ persona_transform PERSONA emptyState "What should I do with my career?"
        = (fallback1, { emptyState with axiom_pressure := 1 }) :=
  ⟨by decide,
   (three_trigger_scenario "What should I do with my career?" "What should I do next?"
     "What should I do?" (by decide) (by decide) (by decide)).1⟩

/-! ## Invariant infrastructure -/

/-- Every call either short-circuits, leaving engrams and history as they
were, or commits: the returned text is appended to the history and the
hardcoded `"career_reflection"` engram counter is bumped by one. -/
theorem transform_engrams_history (p : PersonaSpec) (s : PersonaState) (input : String) :
    ((persona_transform p s input).2.engrams = s.engrams
      ∧ (persona_transform p s input).2.history = s.history)
    ∨ ((persona_transform p s input).2.engrams
          = dictSet s.engrams "career_reflection" (dictGet s.engrams "career_reflection" + 1)
        ∧ (persona_transform p s input).2.history
          = s.history ++ [(persona_transform p s input).1]) := by
  unfold persona_transform
  cases hs : stateCheckFails p.axioms (naive_model input) s
  · cases hh : historyCheckFails p.axioms (s.history ++ [naive_model input])
    · right
      cases hv : trajectoryViolation p.axioms s.history (naive_model input) <;>
        simp [hs, hh, hv]
    · left
      simp [hs, hh]
  · left
    simp [hs]

/-- Setting a key makes lookup of that key return the written value. -/
theorem dictGet_dictSet_self (d : List (String × Nat)) (k : String) (v : Nat) :
    dictGet (dictSet d k v) k = v := by
  induction d with
  | nil => simp [dictSet, dictGet]
  | cons kv rest ih =>
    obtain ⟨k2, v2⟩ := kv
    cases hb : (k2 == k) <;> simp [dictSet, dictGet, hb, ih]

/-- `dictSet` keeps the key set inside `sch` provided the written key is in
`sch`. -/
theorem subsetKeys_dictSet (d : List (String × Nat)) (sch : List String) (k : String) (v : Nat)
    (hd : subsetKeys d sch = true) (hk : sch.contains k = true) :
    subsetKeys (dictSet d k v) sch = true := by
  induction d with
  | nil =>
    simp only [dictSet, subsetKeys, List.all_cons, List.all_nil, Bool.and_true]
    exact hk
  | cons kv rest ih =>
    obtain ⟨k2, v2⟩ := kv
    simp only [subsetKeys, List.all_cons, Bool.and_eq_true] at hd
    cases hb : (k2 == k)
    · simp only [dictSet, hb, Bool.false_eq_true, if_false, subsetKeys, List.all_cons,
        Bool.and_eq_true]
      exact ⟨hd.1, ih hd.2⟩
    · simp only [dictSet, hb, if_true, subsetKeys, List.all_cons, Bool.and_eq_true]
      exact ⟨hd.1, hd.2⟩

/-- The naive model's output never contains the trajectory-forbidden
phrase. -/
theorem naive_model_no_dependency (input : String) :
    strContains (strToLower (naive_model input)) "check in with me every day" = false := by
  unfold naive_model
  cases h : strContains (strToLower input) "what should i do" <;> simp [h] <;> decide

/-- With the reference persona the trajectory loop counts no failures, for
any history. -/
theorem trajCount_PERSONA_zero (hist : List String) (input : String) :
    trajectoryFailCount PERSONA.axioms hist (naive_model input) = 0 := by
  have h := naive_model_no_dependency input
  simp [PERSONA, AXIOMS, trajectoryFailCount, no_dependency_trajectory, h]

/-- With the reference persona the trajectory-violation flag is never set,
for any history. -/
theorem trajViolation_PERSONA_false (hist : List String) (input : String) :
    trajectoryViolation PERSONA.axioms hist (naive_model input) = false := by
  have h := naive_model_no_dependency input
  simp [PERSONA, AXIOMS, trajectoryViolation, no_dependency_trajectory, h]

/-- With the reference persona no call ever changes `primitive_saturation`. -/
theorem transform_PERSONA_saturation (s : PersonaState) (input : String) :
    (persona_transform PERSONA s input).2.primitive_saturation = s.primitive_saturation := by
  unfold persona_transform
  cases hs : stateCheckFails PERSONA.axioms (naive_model input) s
  · cases hh : historyCheckFails PERSONA.axioms (s.history ++ [naive_model input])
    · simp [hs, hh, trajViolation_PERSONA_false s.history input]
    · simp [hs, hh]
  · simp [hs]

/-- Along any reference-persona session `primitive_saturation` stays 0. -/
theorem reachable_saturation_zero (s : PersonaState) (h : ReachableWith PERSONA s) :
    s.primitive_saturation = 0 := by
  induction h with
  | init => rfl
  | step s' input _ ih => rw [transform_PERSONA_saturation]; exact ih

/-! ## Invariant claim theorems -/

/-- A persona definition whose memory-category schema is empty. -/
def emptySchemaPersona : PersonaSpec :=
  { axioms := [], primitives := [], engram_schema := [] }

/-- Counterexample to C6 as stated: with the empty-schema persona, one
committed call reaches a state whose engram keys (the hardcoded
`"career_reflection"`) are not a subset of that persona's schema. -/
theorem engram_schema_subset_counterexample :
    ReachableWith emptySchemaPersona (persona_transform emptySchemaPersona emptyState "hello").2
    ∧ subsetKeys (persona_transform emptySchemaPersona emptyState "hello").2.engrams
        emptySchemaPersona.engram_schema = false :=
  ⟨ReachableWith.step emptyState "hello" ReachableWith.init, by decide⟩

/-- C6 (amended): the only engram key the loop ever creates is the
hardcoded `"career_reflection"`, which belongs to the reference persona's
schema; hence for every driving persona definition, every reachable
state's engram keys are a subset of the reference schema.  The subset
property relative to an arbitrary owning definition's schema holds only
when that schema contains `"career_reflection"`. -/
theorem engram_keys_in_reference_schema (p : PersonaSpec) (s : PersonaState)
    (h : ReachableWith p s) :
    subsetKeys s.engrams PERSONA.engram_schema = true := by
  induction h with
  | init => rfl
  | step s' input _ ih =>
    rcases transform_engrams_history p s' input with ⟨he, _⟩ | ⟨he, _⟩
    · rw [he]; exact ih
    · rw [he]; exact subsetKeys_dictSet _ _ _ _ ih (by decide)

/-- Witness for C6 (amended): one committed reference-persona call. -/
theorem engram_keys_in_reference_schema_witness :
    subsetKeys (persona_transform PERSONA emptyState "hello").2.engrams
      PERSONA.engram_schema = true :=
  engram_keys_in_reference_schema PERSONA _
    (ReachableWith.step emptyState "hello" ReachableWith.init)

/-- C9: with the reference persona and generator, the repair path is dead:
the candidate never contains the trajectory-forbidden phrase, no call sets
the violation flag or changes `primitive_saturation`, reachable states keep
`primitive_saturation = 0`, and drift detection at the default thresholds
never reports high repair saturation. -/
theorem repair_path_unreachable (s : PersonaState) (input : String)
    (h : ReachableWith PERSONA s) :
    strContains (strToLower (naive_model input)) "check in with me every day" = false
    ∧ trajectoryFailCount PERSONA.axioms s.history (naive_model input) = 0
    ∧ trajectoryViolation PERSONA.axioms s.history (naive_model input) = false
    ∧ (persona_transform PERSONA s input).2.primitive_saturation = s.primitive_saturation
    ∧ s.primitive_saturation = 0
    ∧ detect_drift s 3 3 ≠ "⚠️ Drift Risk: Primitive Saturation" := by
  have hz := reachable_saturation_zero s h
  refine ⟨naive_model_no_dependency input, trajCount_PERSONA_zero s.history input,
    trajViolation_PERSONA_false s.history input, transform_PERSONA_saturation s input, hz, ?_⟩
  unfold detect_drift
  by_cases hp : s.axiom_pressure > 3
  · rw [if_pos hp]
    decide
  · rw [if_neg hp, if_neg (by omega)]
    decide

/-- Witness for C9: the empty session state. -/
theorem repair_path_unreachable_witness :
    (persona_transform PERSONA emptyState "hello").2.primitive_saturation
      = emptyState.primitive_saturation :=
  (repair_path_unreachable emptyState "hello" ReachableWith.init).2.2.2.1

/-- Each committed call adds one history entry and bumps the
`"career_reflection"` counter by one; short-circuited calls change neither.
Hence the invariant below is preserved. -/
theorem transform_career_count (p : PersonaSpec) (s : PersonaState) (input : String)
    (hinv : dictGet s.engrams "career_reflection" = s.history.length) :
    dictGet (persona_transform p s input).2.engrams "career_reflection"
      = (persona_transform p s input).2.history.length := by
  rcases transform_engrams_history p s input with ⟨he, hh⟩ | ⟨he, hh⟩
  · rw [he, hh, hinv]
  · rw [he, hh, dictGet_dictSet_self, hinv]
    simp

/-- C10: in every state reachable from the empty state by
`persona_transform` calls, the `"career_reflection"` engram count equals
the history length. -/
theorem career_count_eq_history_length (p : PersonaSpec) (s : PersonaState)
    (h : ReachableWith p s) :
    dictGet s.engrams "career_reflection" = s.history.length := by
  induction h with
  | init => rfl
  | step s' input _ ih => exact transform_career_count p s' input ih

/-- Witness for C10: one committed reference-persona call. -/
theorem career_count_eq_history_length_witness :
    dictGet (persona_transform PERSONA emptyState "hello").2.engrams "career_reflection"
      = (persona_transform PERSONA emptyState "hello").2.history.length :=
  career_count_eq_history_length PERSONA _
    (ReachableWith.step emptyState "hello" ReachableWith.init)
